import Mathlib

/-!
Shallow embedding of the ARM RTOS kernel (task manager, scheduler,
queue/semaphore manager, memory manager) from `src/src/*.c`, together with
theorems settling the specification claims.

Machine integers are modelled as `Nat` with explicit `% 2^32` where uint32
overflow matters.  The fixed C tables (`task_table`, `ready_queues`,
`queues`, `semaphores`) are modelled as Lean lists indexed by id; pointers
into the task table are modelled by slot indices.
-/

namespace RTOS

/-- 2^32, the modulus of uint32 arithmetic. -/
def U32 : Nat := 4294967296

/-- MAX_TASKS from rtos_config.h. -/
def MAX_TASKS : Nat := 8

/-- SCHEDULER_PRIORITY_LEVELS from scheduler.h. -/
def SCHEDULER_PRIORITY_LEVELS : Nat := 5

/-- TIME_SLICE_MS from rtos_config.h. -/
def TIME_SLICE_MS : Nat := 10

/-- MAX_QUEUES from rtos_config.h. -/
def MAX_QUEUES : Nat := 4

/-- MAX_QUEUE_SIZE from rtos_config.h. -/
def MAX_QUEUE_SIZE : Nat := 16

/-- MAX_SEMAPHORES from queue_manager.h. -/
def MAX_SEMAPHORES : Nat := 4

/-- SEMAPHORE_MAX_COUNT from queue_manager.h. -/
def SEMAPHORE_MAX_COUNT : Nat := 255

/-- QUEUE_TIMEOUT_INFINITE sentinel from queue_manager.h. -/
def QUEUE_TIMEOUT_INFINITE : Nat := 0xFFFFFFFF

/-- The sentinel id 0xFF used for "no task". -/
def TASK_ID_NONE : Nat := 0xFF

/-- task_state_t from rtos_config.h. -/
inductive TaskState where
  | ready
  | running
  | blocked
  | suspended
  | deleted
deriving Repr, DecidableEq

/-- rtos_result_t from rtos_config.h. -/
inductive RtosResult where
  | success
  | error
  | timeout
  | noMemory
  | invalidParam
deriving Repr, DecidableEq

/-- queue_result_t from rtos_config.h. -/
inductive QueueResult where
  | success
  | error
  | timeout
  | full
  | empty
deriving Repr, DecidableEq

/-- tcb_t from task_manager.h (scheduling-relevant fields; the doubly linked
ready-queue links live in the per-priority lists of `Kernel.ready_queues`,
and `stack_base` is modelled by the flag `stack_allocated`). -/
structure Tcb where
  task_id : Nat
  priority : Nat
  state : TaskState
  delay_ticks : Nat
  time_slice_remaining : Nat
  stack_allocated : Bool
  context_switches : Nat
deriving Repr, DecidableEq

/-- A task-table slot as task_manager_init leaves it. -/
def defaultTcb : Tcb :=
  { task_id := TASK_ID_NONE, priority := 0, state := .deleted, delay_ticks := 0,
    time_slice_remaining := 0, stack_allocated := false, context_switches := 0 }

instance : Inhabited Tcb := ⟨defaultTcb⟩

/-- queue_t from queue_manager.h.  The waiter arrays with their counts are
modelled as lists of task ids in insertion order. -/
structure MsgQueue where
  buffer : List Nat
  size : Nat
  head : Nat
  tail : Nat
  count : Nat
  is_active : Bool
  send_waiting : List Nat
  receive_waiting : List Nat
deriving Repr, DecidableEq

/-- A queue slot as queue_manager_init leaves it. -/
def defaultQueue : MsgQueue :=
  { buffer := [], size := 0, head := 0, tail := 0, count := 0, is_active := false,
    send_waiting := [], receive_waiting := [] }

instance : Inhabited MsgQueue := ⟨defaultQueue⟩

/-- semaphore_t from queue_manager.h. -/
structure Sem where
  count : Nat
  max_count : Nat
  is_active : Bool
  waiting : List Nat
deriving Repr, DecidableEq

/-- A semaphore slot as queue_manager_init leaves it. -/
def defaultSem : Sem :=
  { count := 0, max_count := 0, is_active := false, waiting := [] }

instance : Inhabited Sem := ⟨defaultSem⟩

/-- The process-wide kernel state: the static variables of task_manager.c,
scheduler.c and queue_manager.c. -/
structure Kernel where
  tasks : List Tcb
  task_count : Nat
  current_task_id : Nat
  ready_queues : List (List Nat)
  scheduler_running : Bool
  scheduler_locked : Bool
  idle_task_id : Nat
  total_context_switches : Nat
  total_scheduler_calls : Nat
  idle_time_percentage : Nat
  cpu_utilization : Nat
  queues : List MsgQueue
  semaphores : List Sem
  qm_initialized : Bool
deriving Repr, DecidableEq

/-- Read the task-table slot at index i. -/
def Kernel.tcb (k : Kernel) (i : Nat) : Tcb := k.tasks.getD i defaultTcb

/-- Write the task-table slot at index i. -/
def Kernel.setTcb (k : Kernel) (i : Nat) (t : Tcb) : Kernel :=
  { k with tasks := k.tasks.set i t }

/-- Read the ready queue of priority p. -/
def Kernel.rq (k : Kernel) (p : Nat) : List Nat := k.ready_queues.getD p []

/-- Write the ready queue of priority p. -/
def Kernel.setRq (k : Kernel) (p : Nat) (l : List Nat) : Kernel :=
  { k with ready_queues := k.ready_queues.set p l }

/-- Read the queue slot at index i. -/
def Kernel.q (k : Kernel) (i : Nat) : MsgQueue := k.queues.getD i defaultQueue

/-- Write the queue slot at index i. -/
def Kernel.setQ (k : Kernel) (i : Nat) (q : MsgQueue) : Kernel :=
  { k with queues := k.queues.set i q }

/-- Read the semaphore slot at index i. -/
def Kernel.sem (k : Kernel) (i : Nat) : Sem := k.semaphores.getD i defaultSem

/-- Write the semaphore slot at index i. -/
def Kernel.setSem (k : Kernel) (i : Nat) (s : Sem) : Kernel :=
  { k with semaphores := k.semaphores.set i s }

/-! Task manager (task_manager.c). -/

/-- task_get_current: returns a pointer to the slot of current_task_id
whenever the id is in range (even if the slot is DELETED). -/
def task_get_current (k : Kernel) : Option Nat :=
  if k.current_task_id < MAX_TASKS then some k.current_task_id else none

/-- task_get_tcb: NULL for an out-of-range id or a DELETED slot. -/
def task_get_tcb (k : Kernel) (id : Nat) : Option Nat :=
  if MAX_TASKS ≤ id then none
  else if (k.tcb id).state = .deleted then none
  else some id

/-- task_set_state: rejects out-of-range and DELETED slots; setting RUNNING
also updates current_task_id. -/
def task_set_state (k : Kernel) (id : Nat) (st : TaskState) : RtosResult × Kernel :=
  if MAX_TASKS ≤ id then (.invalidParam, k)
  else
    let t := k.tcb id
    if t.state = .deleted then (.error, k)
    else
      let k1 := k.setTcb id { t with state := st }
      if st = .running then (.success, { k1 with current_task_id := id })
      else (.success, k1)

/-- The per-slot body of the task_update_delays loop. -/
def updateDelayOne (t : Tcb) : Tcb :=
  if t.state = .blocked ∧ 0 < t.delay_ticks then
    let d := t.delay_ticks - 1
    if d = 0 then { t with delay_ticks := d, state := .ready }
    else { t with delay_ticks := d }
  else t

/-- task_update_delays: decrement the delay of every BLOCKED task; a task
whose delay reaches zero becomes READY (it is not re-inserted into any
ready queue by this function). -/
def task_update_delays (k : Kernel) : Kernel :=
  { k with tasks := k.tasks.map updateDelayOne }

/-- task_delay: set the current task's delay and mark it BLOCKED.  The
source ends with a comment in place of a context-switch call and never
touches the ready queues. -/
def task_delay (k : Kernel) (delay_ticks : Nat) : Kernel :=
  if k.current_task_id < MAX_TASKS then
    let t := k.tcb k.current_task_id
    k.setTcb k.current_task_id { t with delay_ticks := delay_ticks, state := .blocked }
  else k

/-- task_delete: free the stack (modelled by clearing stack_allocated), mark
the slot DELETED with a 0xFF id, decrement task_count.  The source does not
touch the ready queues or any waiter list. -/
def task_delete (k : Kernel) (id : Nat) : RtosResult × Kernel :=
  if MAX_TASKS ≤ id then (.invalidParam, k)
  else
    let t := k.tcb id
    if t.state = .deleted then (.error, k)
    else
      let t1 := if t.stack_allocated then { t with stack_allocated := false } else t
      let k1 := k.setTcb id { t1 with state := .deleted, task_id := TASK_ID_NONE }
      let k2 := if 0 < k1.task_count then { k1 with task_count := k1.task_count - 1 } else k1
      (.success, k2)

/-! Scheduler (scheduler.c). -/

/-- scheduler_find_highest_priority_task: scan priorities from
SCHEDULER_PRIORITY_LEVELS-1 down to 0 and return the head of the first
non-empty ready queue. -/
def scheduler_find_highest_priority_task (k : Kernel) : Option Nat :=
  (List.range SCHEDULER_PRIORITY_LEVELS).reverse.findSome? fun p => (k.rq p).head?

/-- scheduler_get_next_task: the current task when locked; otherwise the
highest-priority ready head, falling back to task_get_tcb of the idle id. -/
def scheduler_get_next_task (k : Kernel) : Option Nat :=
  if k.scheduler_locked then task_get_current k
  else
    match scheduler_find_highest_priority_task k with
    | some t => some t
    | none => task_get_tcb k k.idle_task_id

/-- scheduler_switch_context: demote the RUNNING current task to READY with
a fresh time slice, promote the chosen next task to RUNNING, update the
context-switch counters. -/
def scheduler_switch_context (k : Kernel) : Kernel :=
  if ¬k.scheduler_running ∨ k.scheduler_locked then k
  else
    let cur := task_get_current k
    match scheduler_get_next_task k with
    | none => k
    | some n =>
      if some n = cur then k
      else
        let k1 :=
          match cur with
          | some c =>
            let t := k.tcb c
            if t.state = .running then
              k.setTcb c { t with state := .ready, time_slice_remaining := TIME_SLICE_MS }
            else k
          | none => k
        let k2 := (task_set_state k1 n .running).2
        let k3 :=
          match cur with
          | some c =>
            let t := k2.tcb c
            k2.setTcb c { t with context_switches := (t.context_switches + 1) % U32 }
          | none => k2
        { k3 with total_context_switches := (k3.total_context_switches + 1) % U32 }

/-- scheduler_round_robin_next: advance the head of the (circular) ready
queue of the given priority by one. -/
def scheduler_round_robin_next (k : Kernel) (priority : Nat) : Kernel :=
  if SCHEDULER_PRIORITY_LEVELS ≤ priority then k
  else
    match k.rq priority with
    | [] => k
    | h :: t => k.setRq priority (t ++ [h])

/-- scheduler_update_statistics: cpu_utilization = 100 - idle*100/calls in
wrapping uint32 arithmetic. -/
def scheduler_update_statistics (k : Kernel) : Kernel :=
  if 0 < k.total_scheduler_calls then
    { k with cpu_utilization :=
        (U32 + 100 - (k.idle_time_percentage * 100 % U32) / k.total_scheduler_calls) % U32 }
  else k

/-- scheduler_tick: update delays, charge the RUNNING current task's time
slice, and only on slice expiry rotate its priority queue and call
scheduler_switch_context. -/
def scheduler_tick (k : Kernel) : Kernel :=
  if ¬k.scheduler_running then k
  else
    let k0 := { k with total_scheduler_calls := (k.total_scheduler_calls + 1) % U32 }
    let k1 := task_update_delays k0
    let k2 :=
      match task_get_current k1 with
      | some c =>
        let t := k1.tcb c
        if t.state = .running then
          let t1 :=
            if 0 < t.time_slice_remaining then
              { t with time_slice_remaining := t.time_slice_remaining - 1 }
            else t
          let k1a := k1.setTcb c t1
          if t1.time_slice_remaining = 0 then
            scheduler_switch_context (scheduler_round_robin_next k1a t1.priority)
          else k1a
        else k1
      | none => k1
    scheduler_update_statistics k2

/-! Queue and semaphore manager (queue_manager.c). -/

/-- queue_add_waiting_task: append the task id to the chosen waiter array
when it is not full. -/
def queue_add_waiting_task (k : Kernel) (qid tid : Nat) (is_sender : Bool) : Kernel :=
  let q := k.q qid
  if is_sender then
    if q.send_waiting.length < MAX_TASKS then
      k.setQ qid { q with send_waiting := q.send_waiting ++ [tid] }
    else k
  else
    if q.receive_waiting.length < MAX_TASKS then
      k.setQ qid { q with receive_waiting := q.receive_waiting ++ [tid] }
    else k

/-- queue_wake_waiting_task: pop the oldest waiter of the chosen kind
(removal of the first occurrence of its id, i.e. the shift in the source)
and mark it READY. -/
def queue_wake_waiting_task (k : Kernel) (qid : Nat) (is_sender : Bool) : Kernel :=
  let q := k.q qid
  if is_sender then
    match q.send_waiting with
    | [] => k
    | tid :: _ =>
      let k1 := k.setQ qid { q with send_waiting := q.send_waiting.erase tid }
      (task_set_state k1 tid .ready).2
  else
    match q.receive_waiting with
    | [] => k
    | tid :: _ =>
      let k1 := k.setQ qid { q with receive_waiting := q.receive_waiting.erase tid }
      (task_set_state k1 tid .ready).2

/-- queue_create: validate, install buffer/head/tail/count and clear the
waiter lists.  The source obtains the buffer from memory_alloc; the model
takes the allocation to succeed and the fresh buffer (zeroed heap at first
use) to be all zeroes. -/
def queue_create (k : Kernel) (qid size : Nat) : QueueResult × Kernel :=
  if ¬k.qm_initialized ∨ MAX_QUEUES ≤ qid ∨ size = 0 ∨ MAX_QUEUE_SIZE < size then (.error, k)
  else
    let q := k.q qid
    if q.is_active then (.error, k)
    else
      (.success, k.setQ qid
        { buffer := List.replicate size 0, size := size, head := 0, tail := 0,
          count := 0, is_active := true, send_waiting := [], receive_waiting := [] })

/-- queue_send: on a full queue with timeout 0 return FULL untouched; with a
non-zero timeout record the current task as a sender-waiter, mark it
BLOCKED and return synchronously (TIMEOUT for a finite timeout, FULL for
the infinite sentinel); otherwise write at tail, advance tail modulo size,
bump count and wake the oldest waiting receiver if any.  The data pointer
is modelled by the word value v. -/
def queue_send (k : Kernel) (qid v timeout_ms : Nat) : QueueResult × Kernel :=
  if ¬k.qm_initialized ∨ MAX_QUEUES ≤ qid then (.error, k)
  else
    let q := k.q qid
    if ¬q.is_active then (.error, k)
    else if q.size ≤ q.count then
      if timeout_ms = 0 then (.full, k)
      else
        match task_get_current k with
        | some c =>
          let k1 := queue_add_waiting_task k qid c true
          let k2 := (task_set_state k1 c .blocked).2
          if timeout_ms ≠ QUEUE_TIMEOUT_INFINITE then (.timeout, k2) else (.full, k2)
        | none => (.full, k)
    else
      let q1 := { q with buffer := q.buffer.set q.tail v,
                         tail := (q.tail + 1) % q.size,
                         count := q.count + 1 }
      let k1 := k.setQ qid q1
      if 0 < q1.receive_waiting.length then (.success, queue_wake_waiting_task k1 qid false)
      else (.success, k1)

/-- queue_receive: on an empty queue with timeout 0 return EMPTY untouched;
with a non-zero timeout record the current task as a receiver-waiter, mark
it BLOCKED and return synchronously; otherwise read at head, advance head
modulo size, decrement count and wake the oldest waiting sender if any.
The middle component is the word written through the data pointer. -/
def queue_receive (k : Kernel) (qid timeout_ms : Nat) : QueueResult × Option Nat × Kernel :=
  if ¬k.qm_initialized ∨ MAX_QUEUES ≤ qid then (.error, none, k)
  else
    let q := k.q qid
    if ¬q.is_active then (.error, none, k)
    else if q.count = 0 then
      if timeout_ms = 0 then (.empty, none, k)
      else
        match task_get_current k with
        | some c =>
          let k1 := queue_add_waiting_task k qid c false
          let k2 := (task_set_state k1 c .blocked).2
          if timeout_ms ≠ QUEUE_TIMEOUT_INFINITE then (.timeout, none, k2)
          else (.empty, none, k2)
        | none => (.empty, none, k)
    else
      let v := q.buffer.getD q.head 0
      let q1 := { q with head := (q.head + 1) % q.size, count := q.count - 1 }
      let k1 := k.setQ qid q1
      if 0 < q1.send_waiting.length then (.success, some v, queue_wake_waiting_task k1 qid true)
      else (.success, some v, k1)

/-- The queue record produced by the enqueue step of queue_send: value
written at tail, tail advanced modulo size, count bumped. -/
def sendUpdatedQueue (k : Kernel) (qid v : Nat) : MsgQueue :=
  { k.q qid with
    buffer := (k.q qid).buffer.set (k.q qid).tail v,
    tail := ((k.q qid).tail + 1) % (k.q qid).size,
    count := (k.q qid).count + 1 }

/-- semaphore_wake_waiting_task: pop the oldest semaphore waiter and mark it
READY. -/
def semaphore_wake_waiting_task (k : Kernel) (sid : Nat) : Kernel :=
  let s := k.sem sid
  match s.waiting with
  | [] => k
  | tid :: _ =>
    let k1 := k.setSem sid { s with waiting := s.waiting.erase tid }
    (task_set_state k1 tid .ready).2

/-- semaphore_give: wake the oldest waiter without touching the count when
one is waiting; otherwise increment the count unless it is already at
max_count; success in every non-error case. -/
def semaphore_give (k : Kernel) (sid : Nat) : RtosResult × Kernel :=
  if ¬k.qm_initialized ∨ MAX_SEMAPHORES ≤ sid then (.invalidParam, k)
  else
    let s := k.sem sid
    if ¬s.is_active then (.error, k)
    else if 0 < s.waiting.length then (.success, semaphore_wake_waiting_task k sid)
    else if s.count < s.max_count then (.success, k.setSem sid { s with count := s.count + 1 })
    else (.success, k)

/-! Memory manager (memory_manager.c), modelled at the granularity the
claims need: the heap walk (the sequence of block headers from the heap
base) for memory_free and coalescing, and the free list (its blocks in list
order, each by its size) for memory_alloc first-fit. -/

/-- MEMORY_ALIGNMENT from memory_manager.h. -/
def MEMORY_ALIGNMENT : Nat := 4

/-- MIN_BLOCK_SIZE from memory_manager.h. -/
def MIN_BLOCK_SIZE : Nat := 16

/-- MEMORY_MAGIC_FREE from memory_manager.h. -/
def MEMORY_MAGIC_FREE : Nat := 0xDEAD

/-- MEMORY_MAGIC_USED from memory_manager.h. -/
def MEMORY_MAGIC_USED : Nat := 0xBEEF

/-- sizeof(memory_block_t) on the 32-bit reference target:
uint16 magic + uint16 size + two 4-byte pointers. -/
def HEADER_SIZE : Nat := 12

/-- HEAP_SIZE from rtos_config.h. -/
def HEAP_SIZE : Nat := 4096

/-- One heap block header as seen by the heap walk: its magic and its total
size (header included). -/
structure Blk where
  magic : Nat
  size : Nat
deriving Repr, DecidableEq

/-- memory_align_size: (size + MEMORY_ALIGNMENT - 1) & ~(MEMORY_ALIGNMENT - 1)
in uint32 arithmetic. -/
def memory_align_size (size : Nat) : Nat :=
  ((size + (MEMORY_ALIGNMENT - 1)) % U32) &&& (U32 - MEMORY_ALIGNMENT)

/-- The aligned_size computed at the top of memory_alloc: align
size + sizeof(memory_block_t) (a wrapping uint32 sum) and raise the result
to MIN_BLOCK_SIZE. -/
def allocAlignedSize (size : Nat) : Nat :=
  let a := memory_align_size ((size + HEADER_SIZE) % U32)
  if a < MIN_BLOCK_SIZE then MIN_BLOCK_SIZE else a

/-- memory_alloc over the free list (blocks by size, in list order),
returning the total size of the block handed out, or none for a NULL
return.  Mirrors the source: reject size 0 (the initialized guard is out of
this state), first-fit search, split when the found block exceeds
aligned_size + MIN_BLOCK_SIZE.  A some result is a non-NULL pointer whose
underlying block has the returned total size. -/
def memory_alloc (free_list : List Nat) (size : Nat) : Option Nat :=
  if size = 0 then none
  else
    let a := allocAlignedSize size
    match free_list.find? (fun bs => a ≤ bs) with
    | none => none
    | some bs => if (a + MIN_BLOCK_SIZE) % U32 ≤ bs then some a else some bs

/-- memory_coalesce_blocks as a function of the heap walk; the source scans
from the heap base and merges a FREE block with a FREE successor in place,
re-checking the merged block before advancing.  The walk shrinks by one
block per merge, so `l.length` steps of fuel always suffice (the fuel-0 case
is only reached on walks of at most one block, which the loop leaves
unchanged). -/
def coalesceGo : Nat → List Blk → List Blk
  | 0, l => l
  | _ + 1, [] => []
  | _ + 1, [b] => [b]
  | fuel + 1, b :: n :: rest =>
    if b.magic = MEMORY_MAGIC_FREE ∧ n.magic = MEMORY_MAGIC_FREE then
      coalesceGo fuel ({ magic := b.magic, size := b.size + n.size } :: rest)
    else b :: coalesceGo fuel (n :: rest)

/-- memory_coalesce_blocks on a heap walk. -/
def memory_coalesce_blocks (l : List Blk) : List Blk := coalesceGo l.length l

/-- memory_free at heap-walk granularity: the freed pointer designates block
i of the walk (the source's magic check is the USED test; its bounds check
is i being a walk index); mark it FREE and run the full coalesce.  The
free-list insertion only reorders the free list and does not change the
walk.  A none result is the RTOS_ERROR path, which leaves the heap
untouched. -/
def memory_free (l : List Blk) (i : Nat) : Option (List Blk) :=
  match l.get? i with
  | none => none
  | some b =>
    if b.magic = MEMORY_MAGIC_USED then
      some (memory_coalesce_blocks (l.set i { magic := MEMORY_MAGIC_FREE, size := b.size }))
    else none

/-- Whether a heap walk contains two adjacent FREE blocks. -/
def noAdjFree : List Blk → Bool
  | [] => true
  | [_] => true
  | a :: b :: rest =>
    !(a.magic = MEMORY_MAGIC_FREE ∧ b.magic = MEMORY_MAGIC_FREE : Bool) && noAdjFree (b :: rest)

/-- The block of the walk covering byte offset o (from the heap base). -/
def blockAt : List Blk → Nat → Option Blk
  | [], _ => none
  | b :: rest, o => if o < b.size then some b else blockAt rest (o - b.size)

/-- Byte offset (from the heap base) of block i of the walk. -/
def blockOffset (l : List Blk) (i : Nat) : Nat :=
  ((l.take i).map Blk.size).sum

/-! Concrete kernel states used by counterexamples and witnesses. -/

/-- The kernel state right after boot-time initialization of the three
managers: empty task table, empty ready queues, inactive queue and
semaphore slots. -/
def kInit : Kernel :=
  { tasks := List.replicate MAX_TASKS defaultTcb, task_count := 0,
    current_task_id := TASK_ID_NONE,
    ready_queues := List.replicate SCHEDULER_PRIORITY_LEVELS [],
    scheduler_running := false, scheduler_locked := false,
    idle_task_id := TASK_ID_NONE, total_context_switches := 0,
    total_scheduler_calls := 0, idle_time_percentage := 0, cpu_utilization := 0,
    queues := List.replicate MAX_QUEUES defaultQueue,
    semaphores := List.replicate MAX_SEMAPHORES defaultSem, qm_initialized := true }

/-- A running scheduler state: task 0 (priority LOW, RUNNING, 5 ticks of
slice left) is current; task 1 (priority HIGH) is BLOCKED with one tick of
delay left; task 2 is the idle task. -/
def kC1 : Kernel :=
  { kInit with
    tasks :=
      [ { task_id := 0, priority := 1, state := .running, delay_ticks := 0,
          time_slice_remaining := 5, stack_allocated := true, context_switches := 0 },
        { task_id := 1, priority := 3, state := .blocked, delay_ticks := 1,
          time_slice_remaining := 10, stack_allocated := true, context_switches := 0 },
        { task_id := 2, priority := 0, state := .ready, delay_ticks := 0,
          time_slice_remaining := 10, stack_allocated := true, context_switches := 0 },
        defaultTcb, defaultTcb, defaultTcb, defaultTcb, defaultTcb ],
    task_count := 3, current_task_id := 0,
    ready_queues := [[2], [0], [], [], []],
    scheduler_running := true, idle_task_id := 2 }

/-- Two user tasks (ids 1 and 2, priority LOW, READY) exist and the queue
manager is initialized; no queue is active yet. -/
def kC2 : Kernel :=
  { kInit with
    tasks :=
      [ defaultTcb,
        { task_id := 1, priority := 1, state := .ready, delay_ticks := 0,
          time_slice_remaining := 10, stack_allocated := true, context_switches := 0 },
        { task_id := 2, priority := 1, state := .ready, delay_ticks := 0,
          time_slice_remaining := 10, stack_allocated := true, context_switches := 0 },
        defaultTcb, defaultTcb, defaultTcb, defaultTcb, defaultTcb ],
    task_count := 2 }

/-- A sequence of public queue operations from kC2: create queue 0 with
capacity 1; fill it; task 1 (made current) attempts a send with infinite
timeout and is recorded as a sender-waiter; likewise task 2; one receive
then drains the queue and wakes task 1. -/
def kC2trace : Kernel :=
  let s1 := (queue_create kC2 0 1).2
  let s2 := (queue_send s1 0 11 0).2
  let s3 := (task_set_state s2 1 .running).2
  let s4 := (queue_send s3 0 22 QUEUE_TIMEOUT_INFINITE).2
  let s5 := (task_set_state s4 2 .running).2
  let s6 := (queue_send s5 0 33 QUEUE_TIMEOUT_INFINITE).2
  (queue_receive s6 0 0).2.2

/-- A locked running scheduler: task 0 is the idle task, task 1 (priority
LOW) is current and RUNNING, task 2 (priority HIGH) heads the priority-3
ready queue. -/
def kC3 : Kernel :=
  { kInit with
    tasks :=
      [ { task_id := 0, priority := 0, state := .ready, delay_ticks := 0,
          time_slice_remaining := 10, stack_allocated := true, context_switches := 0 },
        { task_id := 1, priority := 1, state := .running, delay_ticks := 0,
          time_slice_remaining := 10, stack_allocated := true, context_switches := 0 },
        { task_id := 2, priority := 3, state := .ready, delay_ticks := 0,
          time_slice_remaining := 10, stack_allocated := true, context_switches := 0 },
        defaultTcb, defaultTcb, defaultTcb, defaultTcb, defaultTcb ],
    task_count := 3, current_task_id := 1,
    ready_queues := [[0], [1], [], [2], []],
    scheduler_running := true, scheduler_locked := true, idle_task_id := 0 }

/-- The same state as kC3 with the scheduler unlocked. -/
def kC3w : Kernel := { kC3 with scheduler_locked := false }

/-- The C3 claim read at one state: get_next_task returns the head of the
highest-priority non-empty ready queue, and the idle task's TCB when every
ready queue is empty. -/
def claimC3At (k : Kernel) : Prop :=
  (∀ p, p < SCHEDULER_PRIORITY_LEVELS → k.rq p ≠ [] →
    (∀ p2, p2 < SCHEDULER_PRIORITY_LEVELS → p < p2 → k.rq p2 = []) →
    scheduler_get_next_task k = (k.rq p).head?) ∧
  ((∀ p, p < SCHEDULER_PRIORITY_LEVELS → k.rq p = []) →
    scheduler_get_next_task k = task_get_tcb k k.idle_task_id)

/-- Queue 0 is active with capacity 2 and full (count = 2); no waiters. -/
def kC6 : Kernel :=
  { kInit with
    queues :=
      [ { buffer := [7, 9], size := 2, head := 0, tail := 0, count := 2,
          is_active := true, send_waiting := [], receive_waiting := [] },
        defaultQueue, defaultQueue, defaultQueue ] }

/-- Queue 0 is active with capacity 2 and empty (head = tail = 0). -/
def kC7 : Kernel :=
  { kInit with
    queues :=
      [ { buffer := [0, 0], size := 2, head := 0, tail := 0, count := 0,
          is_active := true, send_waiting := [], receive_waiting := [] },
        defaultQueue, defaultQueue, defaultQueue ] }

/-- Semaphore 0 is active with count 0, max_count 2 and task 1 waiting;
task 1 exists and is BLOCKED. -/
def kC8 : Kernel :=
  { kInit with
    tasks :=
      [ defaultTcb,
        { task_id := 1, priority := 1, state := .blocked, delay_ticks := 0,
          time_slice_remaining := 10, stack_allocated := true, context_switches := 0 },
        defaultTcb, defaultTcb, defaultTcb, defaultTcb, defaultTcb, defaultTcb ],
    task_count := 1,
    semaphores :=
      [ { count := 0, max_count := 2, is_active := true, waiting := [1] },
        defaultSem, defaultSem, defaultSem ] }

/-! Theorems settling the claims. -/

/-- C1: the claim says a tick whose delay update wakes a higher-priority
task must request a context switch in that same tick.  At kC1 the delay
update makes task 1 (priority 3) READY while task 0 (priority 1) is
RUNNING with time slice left, yet scheduler_tick performs no context
switch: task 0 stays RUNNING and current, no switch is counted, and the
woken task is not even placed on a ready queue. -/
theorem c1_tick_skips_preemption_on_wakeup :
    (kC1.tcb 1).state = .blocked ∧
    ((scheduler_tick kC1).tcb 1).state = .ready ∧
    ((scheduler_tick kC1).tcb 0).priority < ((scheduler_tick kC1).tcb 1).priority ∧
    ((scheduler_tick kC1).tcb 0).state = .running ∧
    (scheduler_tick kC1).current_task_id = 0 ∧
    (scheduler_tick kC1).total_context_switches = kC1.total_context_switches ∧
    (scheduler_tick kC1).rq 3 = [] := by
  decide

/-- C2: the claim says every reachable quiescent state has count = 0 only
with an empty sender-waiter list.  After the public operation sequence of
kC2trace (capacity-1 queue, one stored item, two infinite-timeout senders,
one receive) the queue is active with count = 0 while task 2 is still on
the sender-waiter list, because the source's blocking send returns
synchronously and the receive-side wake removes only the list head. -/
theorem c2_zero_count_with_sender_waiter :
    (kC2trace.q 0).is_active = true ∧
    (kC2trace.q 0).count = 0 ∧
    (kC2trace.q 0).send_waiting = [2] := by
  decide

/-- C3 counterexample: at the locked state kC3 the priority-3 ready queue
is non-empty with head task 2, but scheduler_get_next_task returns the
current task 1, so the claim fails as stated over every scheduler state. -/
theorem c3_counterexample_locked : ¬claimC3At kC3 := by
  unfold claimC3At
  decide

/-- The downward scan of scheduler_find_highest_priority_task returns the
head of the ready queue of the highest priority p whose queue is non-empty
(all priorities above p being empty). -/
theorem find_highest_at (k : Kernel) (p : Nat) (hp : p < SCHEDULER_PRIORITY_LEVELS)
    (hne : k.rq p ≠ [])
    (hub : ∀ p2, p2 < SCHEDULER_PRIORITY_LEVELS → p < p2 → k.rq p2 = []) :
    scheduler_find_highest_priority_task k = (k.rq p).head? := by
  have hp5 : p < 5 := hp
  have hrange : (List.range SCHEDULER_PRIORITY_LEVELS).reverse = [4, 3, 2, 1, 0] := by decide
  unfold scheduler_find_highest_priority_task
  rw [hrange]
  obtain ⟨a, t, hat⟩ := List.exists_cons_of_ne_nil hne
  interval_cases p
  · have e4 := hub 4 (by decide) (by decide)
    have e3 := hub 3 (by decide) (by decide)
    have e2 := hub 2 (by decide) (by decide)
    have e1 := hub 1 (by decide) (by decide)
    simp [List.findSome?_cons, e4, e3, e2, e1, hat]
  · have e4 := hub 4 (by decide) (by decide)
    have e3 := hub 3 (by decide) (by decide)
    have e2 := hub 2 (by decide) (by decide)
    simp [List.findSome?_cons, e4, e3, e2, hat]
  · have e4 := hub 4 (by decide) (by decide)
    have e3 := hub 3 (by decide) (by decide)
    simp [List.findSome?_cons, e4, e3, hat]
  · have e4 := hub 4 (by decide) (by decide)
    simp [List.findSome?_cons, e4, hat]
  · simp [List.findSome?_cons, hat]

/-- When every ready queue is empty the downward scan finds nothing. -/
theorem find_highest_none (k : Kernel)
    (hall : ∀ p, p < SCHEDULER_PRIORITY_LEVELS → k.rq p = []) :
    scheduler_find_highest_priority_task k = none := by
  have e0 := hall 0 (by decide)
  have e1 := hall 1 (by decide)
  have e2 := hall 2 (by decide)
  have e3 := hall 3 (by decide)
  have e4 := hall 4 (by decide)
  unfold scheduler_find_highest_priority_task
  rw [show (List.range SCHEDULER_PRIORITY_LEVELS).reverse = [4, 3, 2, 1, 0] from by decide]
  simp [List.findSome?_cons, e0, e1, e2, e3, e4]

/-- C3 amended: for every scheduler state in which the scheduler is NOT
locked, get_next_task returns the head of the highest-priority non-empty
ready queue, and when all ready queues are empty it returns the idle
task's TCB (the locked case instead returns the current task, as
c3_counterexample_locked shows). -/
theorem c3_amended_get_next_unlocked (k : Kernel) (hl : k.scheduler_locked = false) :
    claimC3At k := by
  constructor
  · intro p hp hne hub
    obtain ⟨a, t, hat⟩ := List.exists_cons_of_ne_nil hne
    simp [scheduler_get_next_task, hl, find_highest_at k p hp hne hub, hat]
  · intro hall
    simp [scheduler_get_next_task, hl, find_highest_none k hall]

/-- Witness for the amended C3 at the unlocked state kC3w: the
highest-priority non-empty ready queue is priority 3 with head task 2. -/
theorem c3_amended_witness : scheduler_get_next_task kC3w = some 2 := by
  have h := (c3_amended_get_next_unlocked kC3w rfl).1 3 (by decide) (by decide) (by decide)
  rw [h]
  decide

/-- C4: the claim says task_delay removes the current task from its ready
queue and yields.  At kC1 (task 0 current, priority 1, on ready queue 1)
task_delay 5 does set delay_ticks and BLOCKED, but task 0 is still on
ready queue 1, every ready queue is unchanged, and no context switch is
performed. -/
theorem c4_task_delay_leaves_ready_queue_and_does_not_yield :
    ((task_delay kC1 5).tcb 0).delay_ticks = 5 ∧
    ((task_delay kC1 5).tcb 0).state = .blocked ∧
    (task_delay kC1 5).ready_queues = kC1.ready_queues ∧
    (task_delay kC1 5).rq 1 = [0] ∧
    (task_delay kC1 5).current_task_id = kC1.current_task_id ∧
    (task_delay kC1 5).total_context_switches = kC1.total_context_switches := by
  decide

/-- C5: the claim says a task on a ready queue is removed from it before
its slot is marked DELETED.  At kC1, task_delete 0 frees the stack, marks
the slot DELETED and decrements the count, but task 0 is still on ready
queue 1 (no ready queue or waiter list is touched). -/
theorem c5_task_delete_leaves_ready_queue :
    (task_delete kC1 0).1 = .success ∧
    ((task_delete kC1 0).2.tcb 0).state = .deleted ∧
    ((task_delete kC1 0).2.tcb 0).stack_allocated = false ∧
    (task_delete kC1 0).2.task_count = kC1.task_count - 1 ∧
    (task_delete kC1 0).2.ready_queues = kC1.ready_queues ∧
    (task_delete kC1 0).2.rq 1 = [0] := by
  decide

/-- Reading a list at a freshly set in-range index yields the new value. -/
theorem getD_set_self {α : Type} :
    ∀ (l : List α) (i : Nat) (a d : α), i < l.length → (l.set i a).getD i d = a
  | [], i, _, _, h => absurd h (by simp)
  | _ :: _, 0, _, _, _ => rfl
  | _ :: t, i + 1, a, d, h => getD_set_self t i a d (by simpa using h)

/-- Setting one index leaves reads at other indices unchanged. -/
theorem getD_set_ne {α : Type} :
    ∀ (l : List α) (i j : Nat) (a d : α), i ≠ j → (l.set i a).getD j d = l.getD j d
  | [], _, _, _, _, _ => rfl
  | _ :: _, 0, 0, _, _, h => absurd rfl h
  | _ :: _, 0, _ + 1, _, _, _ => rfl
  | _ :: _, _ + 1, 0, _, _, _ => rfl
  | _ :: t, i + 1, j + 1, a, d, h =>
    getD_set_ne t i j a d (fun hc => h (by simpa using hc))

/-- task_set_state only touches the task table and the current-task id. -/
theorem task_set_state_preserves_queues (k : Kernel) (id : Nat) (st : TaskState) :
    (task_set_state k id st).2.queues = k.queues ∧
    (task_set_state k id st).2.semaphores = k.semaphores ∧
    (task_set_state k id st).2.qm_initialized = k.qm_initialized := by
  by_cases h1 : MAX_TASKS ≤ id <;>
    by_cases h2 : (k.tcb id).state = TaskState.deleted <;>
    by_cases h3 : st = TaskState.running <;>
    simp [task_set_state, Kernel.setTcb, h1, h2, h3]

/-- queue_wake_waiting_task changes at most waiter lists, task states and
the current-task id: the ring-buffer fields and activity of every queue,
and the initialized flag, are untouched. -/
theorem queue_wake_preserves_ring (k : Kernel) (qid : Nat) (s : Bool) (j : Nat) :
    ((queue_wake_waiting_task k qid s).q j).buffer = (k.q j).buffer ∧
    ((queue_wake_waiting_task k qid s).q j).size = (k.q j).size ∧
    ((queue_wake_waiting_task k qid s).q j).head = (k.q j).head ∧
    ((queue_wake_waiting_task k qid s).q j).tail = (k.q j).tail ∧
    ((queue_wake_waiting_task k qid s).q j).count = (k.q j).count ∧
    ((queue_wake_waiting_task k qid s).q j).is_active = (k.q j).is_active ∧
    (queue_wake_waiting_task k qid s).qm_initialized = k.qm_initialized := by
  have key : ∀ (q2 : MsgQueue) (tid : Nat),
      q2.buffer = (k.q qid).buffer → q2.size = (k.q qid).size →
      q2.head = (k.q qid).head → q2.tail = (k.q qid).tail →
      q2.count = (k.q qid).count → q2.is_active = (k.q qid).is_active →
      (((task_set_state (k.setQ qid q2) tid .ready).2.q j).buffer = (k.q j).buffer ∧
       ((task_set_state (k.setQ qid q2) tid .ready).2.q j).size = (k.q j).size ∧
       ((task_set_state (k.setQ qid q2) tid .ready).2.q j).head = (k.q j).head ∧
       ((task_set_state (k.setQ qid q2) tid .ready).2.q j).tail = (k.q j).tail ∧
       ((task_set_state (k.setQ qid q2) tid .ready).2.q j).count = (k.q j).count ∧
       ((task_set_state (k.setQ qid q2) tid .ready).2.q j).is_active = (k.q j).is_active ∧
       (task_set_state (k.setQ qid q2) tid .ready).2.qm_initialized = k.qm_initialized) := by
    intro q2 tid hb hs hh ht hc ha
    have hts := task_set_state_preserves_queues (k.setQ qid q2) tid .ready
    have hq : (task_set_state (k.setQ qid q2) tid .ready).2.q j = (k.setQ qid q2).q j := by
      simp only [Kernel.q, hts.1]
    have hqm : (task_set_state (k.setQ qid q2) tid .ready).2.qm_initialized =
        k.qm_initialized := hts.2.2
    rw [hq, hqm]
    by_cases hj : qid = j
    · subst hj
      by_cases hlen : qid < k.queues.length
      · simp [Kernel.q, Kernel.setQ, List.getElem?_set_eq_of_lt q2 hlen,
          hb, hs, hh, ht, hc, ha]
      · simp [Kernel.q, Kernel.setQ, List.set_eq_of_length_le (Nat.le_of_not_lt hlen)]
    · simp [Kernel.q, Kernel.setQ, List.getElem?_set_ne hj]
  cases s with
  | true =>
    cases hw : (k.q qid).send_waiting with
    | nil => simp [queue_wake_waiting_task, hw]
    | cons tid rest =>
      have hgoal :
          queue_wake_waiting_task k qid true =
            (task_set_state
              (k.setQ qid { k.q qid with send_waiting := (tid :: rest).erase tid })
              tid .ready).2 := by
        simp only [queue_wake_waiting_task, hw, ite_true, if_true]
      rw [hgoal]
      exact key _ tid rfl rfl rfl rfl rfl rfl
  | false =>
    cases hw : (k.q qid).receive_waiting with
    | nil => simp [queue_wake_waiting_task, hw]
    | cons tid rest =>
      have hgoal :
          queue_wake_waiting_task k qid false =
            (task_set_state
              (k.setQ qid { k.q qid with receive_waiting := (tid :: rest).erase tid })
              tid .ready).2 := by
        simp only [queue_wake_waiting_task, hw, Bool.false_eq_true, ite_false, if_false]
      rw [hgoal]
      exact key _ tid rfl rfl rfl rfl rfl rfl

/-- C6: sending to an active full queue with timeout 0 returns FULL and
returns the kernel state unchanged: head, tail, count, buffer contents and
both waiter lists of every queue are exactly as before. -/
theorem c6_send_full_zero_timeout_no_mutation (k : Kernel) (qid v : Nat)
    (h1 : k.qm_initialized = true) (h2 : qid < MAX_QUEUES)
    (h3 : (k.q qid).is_active = true) (h4 : (k.q qid).count = (k.q qid).size) :
    queue_send k qid v 0 = (.full, k) := by
  have h2' : ¬MAX_QUEUES ≤ qid := Nat.not_le.mpr h2
  simp [queue_send, h1, h2', h3, h4]

/-- Witness for C6 at the concrete full queue of kC6. -/
theorem c6_witness : queue_send kC6 0 99 0 = (.full, kC6) :=
  c6_send_full_zero_timeout_no_mutation kC6 0 99 rfl (by decide) rfl rfl

/-- Effect of a queue_send that finds room: success, the value written at
the old tail, count bumped, head/size/activity preserved, whatever wake-up
of a waiting receiver happens notwithstanding. -/
theorem queue_send_success_eq (k : Kernel) (qid v t1 : Nat)
    (h1 : k.qm_initialized = true) (h2' : ¬MAX_QUEUES ≤ qid)
    (h3 : (k.q qid).is_active = true)
    (hsz : ¬((k.q qid).size ≤ (k.q qid).count)) :
    queue_send k qid v t1 =
      (QueueResult.success,
        if 0 < (sendUpdatedQueue k qid v).receive_waiting.length then
          queue_wake_waiting_task (k.setQ qid (sendUpdatedQueue k qid v)) qid false
        else k.setQ qid (sendUpdatedQueue k qid v)) := by
  by_cases hrw : 0 < (k.q qid).receive_waiting.length <;>
    simp [queue_send, sendUpdatedQueue, h1, h2', h3, hsz, hrw]

/-- Effect of a queue_send that finds room: success, the value written at
the old tail, count bumped, head/size/activity preserved, whatever wake-up
of a waiting receiver happens notwithstanding. -/
theorem queue_send_success_state (k : Kernel) (qid v t1 : Nat)
    (hlen : qid < k.queues.length)
    (h1 : k.qm_initialized = true) (h2' : ¬MAX_QUEUES ≤ qid)
    (h3 : (k.q qid).is_active = true)
    (hsz : ¬((k.q qid).size ≤ (k.q qid).count)) :
    (queue_send k qid v t1).1 = QueueResult.success ∧
    ((queue_send k qid v t1).2.q qid).buffer = (k.q qid).buffer.set (k.q qid).tail v ∧
    ((queue_send k qid v t1).2.q qid).head = (k.q qid).head ∧
    ((queue_send k qid v t1).2.q qid).size = (k.q qid).size ∧
    ((queue_send k qid v t1).2.q qid).count = (k.q qid).count + 1 ∧
    ((queue_send k qid v t1).2.q qid).is_active = true ∧
    (queue_send k qid v t1).2.qm_initialized = true := by
  have hget : ((k.setQ qid (sendUpdatedQueue k qid v)).q qid) = sendUpdatedQueue k qid v := by
    simp only [Kernel.q, Kernel.setQ]
    exact getD_set_self k.queues qid (sendUpdatedQueue k qid v) defaultQueue hlen
  rw [queue_send_success_eq k qid v t1 h1 h2' h3 hsz]
  by_cases hrw : 0 < (sendUpdatedQueue k qid v).receive_waiting.length
  · rw [if_pos hrw]
    have hp := queue_wake_preserves_ring (k.setQ qid (sendUpdatedQueue k qid v)) qid false qid
    refine ⟨rfl, ?_, ?_, ?_, ?_, ?_, ?_⟩
    · rw [hp.1, hget]
      rfl
    · rw [hp.2.2.1, hget]
      rfl
    · rw [hp.2.1, hget]
      rfl
    · rw [hp.2.2.2.2.1, hget]
      rfl
    · rw [hp.2.2.2.2.2.1, hget]
      exact h3
    · rw [hp.2.2.2.2.2.2]
      exact h1
  · rw [if_neg hrw]
    refine ⟨rfl, ?_, ?_, ?_, ?_, ?_, h1⟩ <;> rw [hget]
    · rfl
    · rfl
    · rfl
    · rfl
    · exact h3

/-- Effect of a queue_receive that finds an item: success and the word at
the head of the buffer delivered. -/
theorem queue_receive_success_value (k : Kernel) (qid t2 : Nat)
    (g1 : k.qm_initialized = true) (g2' : ¬MAX_QUEUES ≤ qid)
    (g3 : (k.q qid).is_active = true) (g4 : ¬((k.q qid).count = 0)) :
    (queue_receive k qid t2).1 = QueueResult.success ∧
    (queue_receive k qid t2).2.1 = some ((k.q qid).buffer.getD (k.q qid).head 0) := by
  simp only [queue_receive, g1, g2', g3, g4]
  by_cases hsw : 0 < ((k.q qid).send_waiting.length) <;> simp [hsw]

/-- C7: on an active empty queue (count = 0, tail = head in range, buffer
sized to capacity) a successful queue_send of word v followed by a
queue_receive on the same queue is successful and delivers exactly v. -/
theorem c7_send_then_receive_roundtrip (k : Kernel) (qid v t1 t2 : Nat)
    (hql : k.queues.length = MAX_QUEUES)
    (h1 : k.qm_initialized = true) (h2 : qid < MAX_QUEUES)
    (h3 : (k.q qid).is_active = true) (h4 : (k.q qid).count = 0)
    (h5 : (k.q qid).tail = (k.q qid).head)
    (h6 : (k.q qid).head < (k.q qid).size)
    (h7 : (k.q qid).buffer.length = (k.q qid).size) :
    (queue_send k qid v t1).1 = QueueResult.success ∧
    (queue_receive (queue_send k qid v t1).2 qid t2).1 = QueueResult.success ∧
    (queue_receive (queue_send k qid v t1).2 qid t2).2.1 = some v := by
  have h2' : ¬MAX_QUEUES ≤ qid := Nat.not_le.mpr h2
  have hlen : qid < k.queues.length := by omega
  have hsz : ¬((k.q qid).size ≤ (k.q qid).count) := by omega
  obtain ⟨hs1, hsb, hsh, hss, hsc, hsa, hsi⟩ :=
    queue_send_success_state k qid v t1 hlen h1 h2' h3 hsz
  have g4 : ¬(((queue_send k qid v t1).2.q qid).count = 0) := by omega
  obtain ⟨hr1, hr2⟩ :=
    queue_receive_success_value (queue_send k qid v t1).2 qid t2 hsi h2' hsa g4
  refine ⟨hs1, hr1, ?_⟩
  rw [hr2, hsb, hsh, h5]
  have hhead : (k.q qid).head < (k.q qid).buffer.length := by omega
  rw [getD_set_self (k.q qid).buffer (k.q qid).head v 0 hhead]

/-- Witness for C7 at the concrete empty queue of kC7 with v = 42. -/
theorem c7_witness :
    (queue_send kC7 0 42 0).1 = QueueResult.success ∧
    (queue_receive (queue_send kC7 0 42 0).2 0 0).1 = QueueResult.success ∧
    (queue_receive (queue_send kC7 0 42 0).2 0 0).2.1 = some 42 :=
  c7_send_then_receive_roundtrip kC7 0 42 0 0 (by decide) rfl (by decide) rfl rfl rfl
    (by decide) (by decide)

/-- task_set_state leaves every semaphore slot unchanged. -/
theorem task_set_state_sem (k : Kernel) (id : Nat) (st : TaskState) (j : Nat) :
    (task_set_state k id st).2.sem j = k.sem j := by
  have h := task_set_state_preserves_queues k id st
  simp only [Kernel.sem, h.2.1]

/-- Marking a live task READY through task_set_state indeed lands its slot
in the READY state. -/
theorem task_set_state_ready_tcb (k : Kernel) (id : Nat)
    (hid : ¬MAX_TASKS ≤ id) (hnd : ¬((k.tcb id).state = TaskState.deleted))
    (hlen : id < k.tasks.length) :
    ((task_set_state k id .ready).2.tcb id).state = .ready := by
  have heq : (task_set_state k id .ready).2 =
      k.setTcb id { k.tcb id with state := .ready } := by
    simp [task_set_state, Kernel.setTcb, hid, hnd]
  rw [heq]
  show ((k.tasks.set id { k.tcb id with state := TaskState.ready }).getD id defaultTcb).state =
    TaskState.ready
  rw [getD_set_self k.tasks id { k.tcb id with state := TaskState.ready } defaultTcb hlen]

/-- C8: for an active semaphore, semaphore_give returns success; if a task
waits, the head (oldest) waiter is removed and made READY while the count
is untouched; otherwise the count is incremented, saturating at max_count;
in every case the count stays at most max_count. -/
theorem c8_semaphore_give_spec (k : Kernel) (sid : Nat)
    (hsl : sid < k.semaphores.length) (htl : k.tasks.length = MAX_TASKS)
    (h1 : k.qm_initialized = true) (h2 : sid < MAX_SEMAPHORES)
    (h3 : (k.sem sid).is_active = true)
    (h4 : (k.sem sid).count ≤ (k.sem sid).max_count)
    (h6 : ∀ t ∈ (k.sem sid).waiting, t < MAX_TASKS ∧ ¬((k.tcb t).state = TaskState.deleted)) :
    (semaphore_give k sid).1 = RtosResult.success ∧
    ((semaphore_give k sid).2.sem sid).count ≤ (k.sem sid).max_count ∧
    (∀ hd tl, (k.sem sid).waiting = hd :: tl →
      ((semaphore_give k sid).2.sem sid).waiting = tl ∧
      ((semaphore_give k sid).2.sem sid).count = (k.sem sid).count ∧
      ((semaphore_give k sid).2.tcb hd).state = .ready) ∧
    ((k.sem sid).waiting = [] →
      ((semaphore_give k sid).2.sem sid).count =
        (if (k.sem sid).count < (k.sem sid).max_count then (k.sem sid).count + 1
         else (k.sem sid).count)) := by
  have h2' : ¬MAX_SEMAPHORES ≤ sid := Nat.not_le.mpr h2
  have hsget : ∀ (s2 : Sem), ((k.setSem sid s2).sem sid) = s2 := by
    intro s2
    simp only [Kernel.sem, Kernel.setSem]
    exact getD_set_self k.semaphores sid s2 defaultSem hsl
  cases hw : (k.sem sid).waiting with
  | nil =>
    have hgive : semaphore_give k sid =
        (RtosResult.success,
          if (k.sem sid).count < (k.sem sid).max_count then
            k.setSem sid { k.sem sid with count := (k.sem sid).count + 1 }
          else k) := by
      by_cases hc : (k.sem sid).count < (k.sem sid).max_count <;>
        simp [semaphore_give, h1, h2', h3, hw, hc]
    rw [hgive]
    by_cases hc : (k.sem sid).count < (k.sem sid).max_count
    · rw [if_pos hc]
      refine ⟨rfl, ?_, ?_, ?_⟩
      · rw [hsget]
        exact hc
      · intro hd tl hcontra
        exact absurd hcontra (by simp)
      · intro _
        rw [if_pos hc, hsget]
    · rw [if_neg hc]
      refine ⟨rfl, h4, ?_, ?_⟩
      · intro hd tl hcontra
        exact absurd hcontra (by simp)
      · intro _
        rw [if_neg hc]
  | cons tid rest =>
    obtain ⟨htid, hnd⟩ := h6 tid (by rw [hw]; exact List.mem_cons_self tid rest)
    have htid' : ¬MAX_TASKS ≤ tid := Nat.not_le.mpr htid
    have hgive : semaphore_give k sid =
        (RtosResult.success,
          (task_set_state (k.setSem sid { k.sem sid with waiting := (tid :: rest).erase tid })
            tid .ready).2) := by
      simp [semaphore_give, semaphore_wake_waiting_task, h1, h2', h3, hw]
    rw [hgive]
    have hsem : ((task_set_state
        (k.setSem sid { k.sem sid with waiting := (tid :: rest).erase tid })
        tid .ready).2.sem sid) = { k.sem sid with waiting := (tid :: rest).erase tid } := by
      rw [task_set_state_sem, hsget]
    refine ⟨rfl, ?_, ?_, ?_⟩
    · rw [hsem]
      exact h4
    · intro hd tl heq
      injection heq with heq1 heq2
      subst heq1
      subst heq2
      refine ⟨?_, ?_, ?_⟩
      · rw [hsem]
        simp
      · rw [hsem]
      · exact task_set_state_ready_tcb
          (k.setSem sid { k.sem sid with waiting := (tid :: rest).erase tid }) tid htid' hnd
          (by simpa [Kernel.setSem] using htl ▸ htid)
    · intro hcontra
      exact absurd hcontra (by simp)

/-- Witness for C8 at kC8: semaphore 0 has task 1 waiting; give wakes it,
leaves the count at 0 and succeeds. -/
theorem c8_witness :
    (semaphore_give kC8 0).1 = RtosResult.success ∧
    ((semaphore_give kC8 0).2.sem 0).waiting = [] ∧
    ((semaphore_give kC8 0).2.sem 0).count = (kC8.sem 0).count ∧
    ((semaphore_give kC8 0).2.tcb 1).state = .ready := by
  have h := c8_semaphore_give_spec kC8 0 (by decide) (by decide) rfl (by decide) rfl
    (by decide) (by decide)
  obtain ⟨h1, _, h3, _⟩ := h
  obtain ⟨hwa, hco, hst⟩ := h3 1 [] rfl
  exact ⟨h1, hwa, hco, hst⟩

/-- The coalescing walk leaves the head block's magic unchanged (merging
only grows its size). -/
theorem coalesceGo_head : ∀ (fuel : Nat) (rest : List Blk) (b : Blk), rest.length ≤ fuel →
    ∃ s rest2, coalesceGo fuel (b :: rest) = { magic := b.magic, size := s } :: rest2 := by
  intro fuel
  induction fuel with
  | zero =>
    intro rest b h
    rw [List.length_eq_zero.mp (Nat.le_zero.mp h)]
    exact ⟨b.size, [], rfl⟩
  | succ n ih =>
    intro rest b h
    cases rest with
    | nil => exact ⟨b.size, [], rfl⟩
    | cons m rest2 =>
      by_cases hf : b.magic = MEMORY_MAGIC_FREE ∧ m.magic = MEMORY_MAGIC_FREE
      · rw [show coalesceGo (n + 1) (b :: m :: rest2) =
            coalesceGo n ({ magic := b.magic, size := b.size + m.size } :: rest2) from by
          simp [coalesceGo, hf]]
        obtain ⟨s, r2, hr⟩ :=
          ih rest2 { magic := b.magic, size := b.size + m.size } (by simpa using h)
        exact ⟨s, r2, hr⟩
      · rw [show coalesceGo (n + 1) (b :: m :: rest2) = b :: coalesceGo n (m :: rest2) from by
          simp [coalesceGo, hf]]
        exact ⟨b.size, coalesceGo n (m :: rest2), rfl⟩

/-- After the coalescing walk (with enough fuel) no two adjacent blocks are
both FREE. -/
theorem noAdjFree_coalesceGo : ∀ (fuel : Nat) (l : List Blk), l.length ≤ fuel + 1 →
    noAdjFree (coalesceGo fuel l) = true := by
  intro fuel
  induction fuel with
  | zero =>
    intro l h
    match l, h with
    | [], _ => rfl
    | [b], _ => rfl
  | succ n ih =>
    intro l h
    match l with
    | [] => rfl
    | [b] => rfl
    | b :: m :: rest2 =>
      by_cases hf : b.magic = MEMORY_MAGIC_FREE ∧ m.magic = MEMORY_MAGIC_FREE
      · rw [show coalesceGo (n + 1) (b :: m :: rest2) =
            coalesceGo n ({ magic := b.magic, size := b.size + m.size } :: rest2) from by
          simp [coalesceGo, hf]]
        refine ih _ ?_
        simp at h ⊢
        omega
      · rw [show coalesceGo (n + 1) (b :: m :: rest2) = b :: coalesceGo n (m :: rest2) from by
          simp [coalesceGo, hf]]
        have hlen2 : rest2.length ≤ n := by simp at h; omega
        obtain ⟨s, r2, hr⟩ := coalesceGo_head n rest2 m hlen2
        have h2 := ih (m :: rest2) (by simp at h ⊢; omega)
        rw [hr] at h2 ⊢
        simp only [noAdjFree, h2, Bool.and_true]
        simp [hf]

/-- The coalescing walk keeps every byte offset that lies in a FREE block
inside a FREE block (merges only fuse FREE neighbours). -/
theorem blockAt_coalesceGo : ∀ (fuel : Nat) (l : List Blk) (o : Nat) (b : Blk),
    l.length ≤ fuel + 1 → blockAt l o = some b → b.magic = MEMORY_MAGIC_FREE →
    ∃ b2, blockAt (coalesceGo fuel l) o = some b2 ∧ b2.magic = MEMORY_MAGIC_FREE := by
  intro fuel
  induction fuel with
  | zero =>
    intro l o b _ hb hm
    exact ⟨b, hb, hm⟩
  | succ n ih =>
    intro l o b h hb hm
    match l with
    | [] => simp [blockAt] at hb
    | [b1] => exact ⟨b, hb, hm⟩
    | b1 :: m :: rest2 =>
      by_cases hf : b1.magic = MEMORY_MAGIC_FREE ∧ m.magic = MEMORY_MAGIC_FREE
      · rw [show coalesceGo (n + 1) (b1 :: m :: rest2) =
            coalesceGo n ({ magic := b1.magic, size := b1.size + m.size } :: rest2) from by
          simp [coalesceGo, hf]]
        have hcov : ∃ c, blockAt ({ magic := b1.magic, size := b1.size + m.size } :: rest2) o =
            some c ∧ c.magic = MEMORY_MAGIC_FREE := by
          by_cases h1 : o < b1.size + m.size
          · refine ⟨{ magic := b1.magic, size := b1.size + m.size }, ?_, hf.1⟩
            simp [blockAt, h1]
          · have hx1 : ¬o < b1.size := by omega
            have hx2 : ¬o - b1.size < m.size := by omega
            simp only [blockAt, hx1, hx2, if_neg, ite_false] at hb
            refine ⟨b, ?_, hm⟩
            simp only [blockAt, h1, ite_false, if_neg]
            rw [show o - (b1.size + m.size) = o - b1.size - m.size from by omega]
            exact hb
        obtain ⟨c, hc, hcm⟩ := hcov
        exact ih _ o c (by simp at h ⊢; omega) hc hcm
      · rw [show coalesceGo (n + 1) (b1 :: m :: rest2) = b1 :: coalesceGo n (m :: rest2) from by
          simp [coalesceGo, hf]]
        by_cases h1 : o < b1.size
        · have hb1 : b1 = b := by
            have := hb
            simp only [blockAt, h1, ite_true, if_pos] at this
            exact Option.some.inj this
          exact ⟨b1, by simp [blockAt, h1], hb1 ▸ hm⟩
        · have hb' : blockAt (m :: rest2) (o - b1.size) = some b := by
            simpa only [blockAt, h1, ite_false, if_neg] using hb
          obtain ⟨b2, hb2, hb2m⟩ := ih (m :: rest2) (o - b1.size) b (by simp at h ⊢; omega) hb' hm
          exact ⟨b2, by simp [blockAt, h1, hb2], hb2m⟩

/-- At the byte offset of walk index i, the walk with block i replaced
reads back exactly the replacement block. -/
theorem blockAt_set_offset : ∀ (l : List Blk) (i : Nat) (x : Blk),
    i < l.length → 0 < x.size → blockAt (l.set i x) (blockOffset l i) = some x := by
  intro l
  induction l with
  | nil => intro i x h _; simp at h
  | cons b t ih =>
    intro i x h hx
    cases i with
    | zero => simp [blockOffset, blockAt, hx]
    | succ n =>
      have hoff : blockOffset (b :: t) (n + 1) = b.size + blockOffset t n := by
        simp [blockOffset]
      rw [List.set_cons_succ, hoff]
      have hns : ¬(b.size + blockOffset t n < b.size) := by omega
      simp only [blockAt, hns, ite_false, if_neg]
      rw [show b.size + blockOffset t n - b.size = blockOffset t n from by omega]
      exact ih n x (by simpa using h) hx

/-- C9: a successful memory_free marks the designated USED block FREE and
the full heap-walk coalesce leaves no two adjacent FREE blocks; the byte
offset of the freed block ends up inside a FREE block of the new walk. -/
theorem c9_free_then_no_adjacent_free (l : List Blk) (i : Nat) (l2 : List Blk)
    (hpos : ∀ b ∈ l, 0 < b.size)
    (h : memory_free l i = some l2) :
    noAdjFree l2 = true ∧
    ∃ b2, blockAt l2 (blockOffset l i) = some b2 ∧ b2.magic = MEMORY_MAGIC_FREE := by
  unfold memory_free at h
  cases hg : l.get? i with
  | none => rw [hg] at h; exact absurd h (by simp)
  | some b =>
    rw [hg] at h
    by_cases hu : b.magic = MEMORY_MAGIC_USED
    · simp only [hu, ite_true, if_pos, Option.some.injEq] at h
      subst h
      have hilen : i < l.length := by
        by_contra hge
        rw [List.get?_eq_none.mpr (Nat.le_of_not_lt hge)] at hg
        exact Option.noConfusion hg
      have hbpos : 0 < b.size := hpos b (List.get?_mem hg)
      constructor
      · exact noAdjFree_coalesceGo (l.set i { magic := MEMORY_MAGIC_FREE, size := b.size }).length
          _ (Nat.le_succ _)
      · have hset := blockAt_set_offset l i { magic := MEMORY_MAGIC_FREE, size := b.size }
          hilen hbpos
        exact blockAt_coalesceGo (l.set i { magic := MEMORY_MAGIC_FREE, size := b.size }).length
          _ (blockOffset l i) _ (Nat.le_succ _) hset rfl
    · simp only [hu, ite_false, if_neg] at h
      exact absurd h (by simp)

/-- Witness for C9: freeing the middle USED block of a three-block walk
whose last block is FREE coalesces the tail into one FREE block and leaves
the freed offset inside a FREE block. -/
theorem c9_witness :
    noAdjFree [{ magic := MEMORY_MAGIC_USED, size := 16 }, { magic := MEMORY_MAGIC_FREE, size := 32 }] = true ∧
    ∃ b2, blockAt [{ magic := MEMORY_MAGIC_USED, size := 16 }, { magic := MEMORY_MAGIC_FREE, size := 32 }]
        (blockOffset [{ magic := MEMORY_MAGIC_USED, size := 16 },
          { magic := MEMORY_MAGIC_USED, size := 20 }, { magic := MEMORY_MAGIC_FREE, size := 12 }] 1) =
        some b2 ∧ b2.magic = MEMORY_MAGIC_FREE :=
  c9_free_then_no_adjacent_free
    [{ magic := MEMORY_MAGIC_USED, size := 16 }, { magic := MEMORY_MAGIC_USED, size := 20 },
      { magic := MEMORY_MAGIC_FREE, size := 12 }] 1
    [{ magic := MEMORY_MAGIC_USED, size := 16 }, { magic := MEMORY_MAGIC_FREE, size := 32 }]
    (by decide) (by decide)

/-- C10: the requested-size arithmetic of memory_alloc wraps modulo 2^32:
for the request 2^32 - 8 the computed aligned size collapses to
MIN_BLOCK_SIZE, so on the fresh heap (one 4096-byte free block) the
allocation succeeds and hands out a 16-byte block instead of failing. -/
theorem c10_alloc_size_wraps_mod_u32 :
    allocAlignedSize (U32 - 8) = MIN_BLOCK_SIZE ∧
    memory_alloc [HEAP_SIZE] (U32 - 8) = some 16 ∧
    16 < U32 - 8 := by
  decide

end RTOS
